import Mathlib

/-!
Verification of the FΦRS33 repetition-code circuit synthesizer
(src/fors33/circuits.py).

The two builders `build_velocity_circuit` (line topology, fixed 700dt
survival window) and `build_endurance_circuit` (star topology, variable
window) are shallowly embedded below: each qiskit call made by the Python
functions, in program order, is recorded as one `Op` value (a register-wide
`qc.measure(reg, creg)` records one `measure` per bit, exactly as qiskit
expands it).  Qubits and classical bits are addressed as (register, index)
pairs, mirroring the named registers `data`/`anc` and `syn`/`out` the
source declares.
-/

namespace Fors33

/-- The two quantum registers declared by both builders:
`QuantumRegister(3, 'data')` and `QuantumRegister(2, 'anc')`. -/
inductive QReg
  | data
  | anc
deriving DecidableEq

/-- The two classical registers declared by both builders:
`ClassicalRegister(2, 'syn')` and `ClassicalRegister(3, 'out')`. -/
inductive CReg
  | syn
  | out
deriving DecidableEq

/-- A qubit slot: register plus positional index. -/
structure Qubit where
  reg : QReg
  idx : Nat
deriving DecidableEq

/-- A classical bit: register plus positional index. -/
structure Clbit where
  reg : CReg
  idx : Nat
deriving DecidableEq

/-- `q_data[i]`. -/
def dq (i : Nat) : Qubit := ⟨QReg.data, i⟩

/-- `q_ancilla[i]`. -/
def aq (i : Nat) : Qubit := ⟨QReg.anc, i⟩

/-- `c_syndrome[i]`. -/
def sb (i : Nat) : Clbit := ⟨CReg.syn, i⟩

/-- `c_output[i]`. -/
def ob (i : Nat) : Clbit := ⟨CReg.out, i⟩

/-- One recorded circuit operation.  `x`, `cx`, `delay` (unit is always
`'dt'` in the source), `barrier`, `measure` correspond to the qiskit calls
of the same name; `ifX r v q` records `with qc.if_test((r, v)): qc.x(q)`,
the conditional flip whose predicate is equality of classical register `r`
with the value `v`. -/
inductive Op
  | x (q : Qubit)
  | cx (control target : Qubit)
  | delay (duration : Nat) (q : Qubit)
  | barrier (label : String)
  | measure (q : Qubit) (c : Clbit)
  | ifX (creg : CReg) (val : Nat) (q : Qubit)
deriving DecidableEq

/-- Phase 3 of `build_velocity_circuit` (circuits.py lines 46-58): with
dynamical decoupling, each data qubit gets `delay(350) - x - delay(350) - x`
(the Python `for qubit in q_data` loop); otherwise one `delay(700)` per
data qubit. -/
def velocity_sched (use_dd : Bool) : List Op :=
  if use_dd then
    (List.range 3).flatMap (fun i =>
      [Op.delay 350 (dq i), Op.x (dq i), Op.delay 350 (dq i), Op.x (dq i)])
  else
    [Op.delay 700 (dq 0), Op.delay 700 (dq 1), Op.delay 700 (dq 2)]

/-- `build_velocity_circuit(use_dd)` (circuits.py lines 9-97): V4.0
velocity profile, line topology, 700dt window. -/
def build_velocity_circuit (use_dd : Bool) : List Op :=
  [Op.x (dq 0), Op.barrier "INIT",
   Op.cx (dq 0) (dq 1), Op.cx (dq 0) (dq 2), Op.barrier "ENCODE"] ++
  velocity_sched use_dd ++
  [Op.barrier "DELAY_700dt",
   Op.cx (dq 0) (aq 0), Op.cx (dq 1) (aq 0),
   Op.cx (dq 1) (aq 1), Op.cx (dq 2) (aq 1),
   Op.measure (aq 0) (sb 0), Op.measure (aq 1) (sb 1),
   Op.barrier "SYNDROME",
   Op.ifX CReg.syn 3 (dq 1), Op.ifX CReg.syn 1 (dq 0), Op.ifX CReg.syn 2 (dq 2),
   Op.barrier "CORRECTION",
   Op.measure (dq 0) (ob 0), Op.measure (dq 1) (ob 1), Op.measure (dq 2) (ob 2)]

/-- Phase 3 of `build_endurance_circuit` (circuits.py lines 141-153): with
dynamical decoupling, `half_delay = delay_dt // 2` and each data qubit gets
`delay(half_delay) - x - delay(half_delay) - x`; otherwise one
`delay(delay_dt)` per data qubit.  (`delay_dt` is kept in `Nat`: the valid
input domain of the spec is the non-negative integers, on which Python's
`//` agrees with `Nat` division.) -/
def endurance_sched (use_dd : Bool) (delay_dt : Nat) : List Op :=
  if use_dd then
    let half_delay := delay_dt / 2
    (List.range 3).flatMap (fun i =>
      [Op.delay half_delay (dq i), Op.x (dq i), Op.delay half_delay (dq i), Op.x (dq i)])
  else
    [Op.delay delay_dt (dq 0), Op.delay delay_dt (dq 1), Op.delay delay_dt (dq 2)]

/-- `build_endurance_circuit(use_dd, delay_dt)` (circuits.py lines
100-181): V4.1 endurance profile, star topology, variable window. -/
def build_endurance_circuit (use_dd : Bool) (delay_dt : Nat) : List Op :=
  [Op.x (dq 0), Op.barrier "INIT",
   Op.cx (dq 0) (dq 1), Op.cx (dq 0) (dq 2), Op.barrier "ENCODE"] ++
  endurance_sched use_dd delay_dt ++
  [Op.barrier ("DELAY_" ++ toString delay_dt ++ "dt"),
   Op.cx (dq 0) (aq 0), Op.cx (dq 1) (aq 0),
   Op.cx (dq 1) (aq 1), Op.cx (dq 2) (aq 1),
   Op.measure (aq 0) (sb 0), Op.measure (aq 1) (sb 1),
   Op.barrier "SYNDROME",
   Op.ifX CReg.syn 3 (dq 1), Op.ifX CReg.syn 1 (dq 0), Op.ifX CReg.syn 2 (dq 2),
   Op.barrier "CORRECTION",
   Op.measure (dq 0) (ob 0), Op.measure (dq 1) (ob 1), Op.measure (dq 2) (ob 2)]

/-- The error taxonomy of spec §7 for the synthesizer entry point. -/
inductive BuildError
  | invalidDelay
  | unsupportedTopology
deriving DecidableEq

/-- Modelled from the spec: the public entry point
`build_circuit(topology, use_decoupling, delay_duration)` of §6 and its
input validation of §4.1 are not present in src/ (the repository exposes
the two builders directly, with no validation).  Following §4.1's stated
order, a negative `delay_duration` fails with `InvalidDelay`; then a
topology tag outside `{line, star}` fails with `UnsupportedTopology`; the
supported tags dispatch to the two builders embedded from src
(`line` = velocity at its fixed 700dt window, `star` = endurance at the
requested window). -/
def build_circuit (topology : String) (use_decoupling : Bool)
    (delay_duration : Int) : Except BuildError (List Op) :=
  if delay_duration < 0 then Except.error BuildError.invalidDelay
  else if topology = "line" then
    Except.ok (build_velocity_circuit use_decoupling)
  else if topology = "star" then
    Except.ok (build_endurance_circuit use_decoupling delay_duration.toNat)
  else Except.error BuildError.unsupportedTopology

/-- Is the operation a barrier? -/
def Op.isBarrier : Op → Bool
  | Op.barrier _ => true
  | _ => false

/-- Is the operation a delay? -/
def Op.isDelay : Op → Bool
  | Op.delay _ _ => true
  | _ => false

/-- Is the operation a measurement? -/
def Op.isMeasure : Op → Bool
  | Op.measure _ _ => true
  | _ => false

/-- Is the operation a conditional flip? -/
def Op.isCond : Op → Bool
  | Op.ifX _ _ _ => true
  | _ => false

/-- Does the operation measure into a bit of classical register `r`? -/
def isMeasureInto (r : CReg) : Op → Bool
  | Op.measure _ c => c.reg == r
  | _ => false

/-- Is the operation a conditional flip whose predicate reads register `r`? -/
def isCondOn (r : CReg) : Op → Bool
  | Op.ifX creg _ _ => creg == r
  | _ => false

/-- The conditional-flip table read off a circuit: the list of
(compared syndrome value, corrected data-qubit index) pairs, in order. -/
def condFlips (c : List Op) : List (Nat × Nat) :=
  c.filterMap fun op =>
    match op with
    | Op.ifX CReg.syn v ⟨QReg.data, i⟩ => some (v, i)
    | _ => none

/-- The 2-bit syndrome value measured when the three data qubits hold the
classical assignment `st`: ancilla 0 accumulates the parity of data qubits
0 and 1 (measured into `syn[0]`, weight 1), ancilla 1 the parity of data
qubits 1 and 2 (measured into `syn[1]`, weight 2). -/
def syndromeVal (st : Fin 3 → Bool) : Nat :=
  (if st 0 ≠ st 1 then 1 else 0) + 2 * (if st 1 ≠ st 2 then 1 else 0)

/-- Flip data qubit `i` in the classical assignment `st`. -/
def flipQubit (i : Fin 3) (st : Fin 3 → Bool) : Fin 3 → Bool :=
  fun j => if j = i then !(st j) else st j

/-- Run a conditional-flip table against measured syndrome value `s`:
every entry whose compared value equals `s` flips its data qubit. -/
def applyCorrections (tbl : List (Nat × Nat)) (s : Nat)
    (st : Fin 3 → Bool) : Fin 3 → Bool :=
  tbl.foldl
    (fun st p =>
      if p.1 = s then (fun j => if (j : Nat) = p.2 then !(st j) else st j)
      else st)
    st

/-- C1.  The syndrome-conditioned corrector of every produced circuit is
exactly the decode table: compare the syndrome register with 3 and flip
data qubit 1, with 1 and flip data qubit 0, with 2 and flip data qubit 2;
an all-agreeing data block yields syndrome 0 and syndrome 0 fires no
correction; and for each of the four single-data-qubit-flip scenarios the
selected correction exactly reverses the injected flip, restoring all
three data qubits to agreement. -/
theorem decode_table_reverses_single_flips (dd : Bool) (d : Nat) (b : Bool)
    (i : Fin 3) :
    condFlips (build_velocity_circuit dd) = [(3, 1), (1, 0), (2, 2)] ∧
    condFlips (build_endurance_circuit dd d) = [(3, 1), (1, 0), (2, 2)] ∧
    syndromeVal (fun _ => b) = 0 ∧
    (∀ st : Fin 3 → Bool, ∀ j,
      applyCorrections (condFlips (build_velocity_circuit dd)) 0 st j = st j) ∧
    (∀ j, applyCorrections (condFlips (build_velocity_circuit dd))
      (syndromeVal (flipQubit i (fun _ => b)))
      (flipQubit i (fun _ => b)) j = b) ∧
    (∀ j, applyCorrections (condFlips (build_endurance_circuit dd d))
      (syndromeVal (flipQubit i (fun _ => b)))
      (flipQubit i (fun _ => b)) j = b) := by
  have hv : condFlips (build_velocity_circuit dd) = [(3, 1), (1, 0), (2, 2)] := by
    cases dd <;> rfl
  have he : condFlips (build_endurance_circuit dd d) = [(3, 1), (1, 0), (2, 2)] := by
    cases dd <;> rfl
  refine ⟨hv, he, ?_, ?_, ?_, ?_⟩
  · cases b <;> rfl
  · intro st j
    rw [hv]
    rfl
  · intro j
    rw [hv]
    fin_cases i <;> fin_cases j <;> cases b <;> rfl
  · intro j
    rw [he]
    fin_cases i <;> fin_cases j <;> cases b <;> rfl

/-- Total duration of all delay operations recorded on qubit `q`. -/
def totalDelayOn (q : Qubit) (c : List Op) : Nat :=
  (c.filterMap fun op =>
    match op with
    | Op.delay dur q' => if q' = q then some dur else none
    | _ => none).sum

/-- C2 counterexample.  With decoupling enabled and the odd window
`delay_dt = 1`, the total delay recorded on data qubit 0 of the endurance
circuit is `2 * (1 / 2) = 0`, not `1`: the remainder of the halving is
dropped, so the claimed invariant fails for odd durations. -/
theorem total_delay_odd_counterexample :
    ¬ (totalDelayOn (dq 0) (build_endurance_circuit true 1) = 1) := by
  decide

/-- C2 amended.  Total per-data-qubit delay across the survival window:
in passive mode it equals `delay_dt` exactly; in decoupling mode it equals
`delay_dt / 2 + delay_dt / 2` (the two emitted half-delays), which is
`delay_dt` exactly when `delay_dt` is even and `delay_dt - 1` when it is
odd.  The fixed-window velocity circuit records exactly 700 per data qubit
in both modes. -/
theorem total_delay_by_mode (dd : Bool) (d : Nat) (q : Fin 3) :
    totalDelayOn (dq q) (build_endurance_circuit dd d) =
      (if dd then d / 2 + d / 2 else d) ∧
    totalDelayOn (dq q) (build_velocity_circuit dd) = 700 := by
  cases dd <;> fin_cases q <;> exact ⟨rfl, rfl⟩

/-- C3.  For every topology tag and decoupling flag, a negative
`delay_duration` fails with `InvalidDelay` and no circuit is produced. -/
theorem negative_delay_fails_invalidDelay (topology : String) (dd : Bool)
    (d : Int) (h : d < 0) :
    build_circuit topology dd d = Except.error BuildError.invalidDelay := by
  simp [build_circuit, h]

/-- C3 witness: `build_circuit("line", true, -1)` fails with
`InvalidDelay`. -/
theorem negative_delay_fails_invalidDelay_witness :
    build_circuit "line" true (-1) = Except.error BuildError.invalidDelay :=
  negative_delay_fails_invalidDelay "line" true (-1) (by decide)

/-- C4 counterexample.  An unsupported topology together with a negative
delay fails with `InvalidDelay`, not `UnsupportedTopology`: the delay
check of §4.1 comes first, so the topology error does not fire
"regardless of the other arguments". -/
theorem unsupported_topology_counterexample :
    ¬ (build_circuit "quadrilateral" true (-1) =
        Except.error BuildError.unsupportedTopology) := by
  intro h
  rw [show build_circuit "quadrilateral" true (-1) =
      Except.error BuildError.invalidDelay from rfl] at h
  exact absurd (Except.error.inj h) (by decide)

/-- C4 amended.  For every topology tag outside `{line, star}`, every
decoupling flag and every non-negative `delay_duration`, `build_circuit`
fails with `UnsupportedTopology` (when the delay is also negative,
`InvalidDelay` takes precedence). -/
theorem unsupported_topology_fails (topology : String) (dd : Bool) (d : Int)
    (hd : 0 ≤ d) (hline : topology ≠ "line") (hstar : topology ≠ "star") :
    build_circuit topology dd d =
      Except.error BuildError.unsupportedTopology := by
  simp [build_circuit, hline, hstar, not_lt.mpr hd]

/-- C4 witness: `build_circuit("quadrilateral", true, 700)` fails with
`UnsupportedTopology`. -/
theorem unsupported_topology_fails_witness :
    build_circuit "quadrilateral" true 700 =
      Except.error BuildError.unsupportedTopology :=
  unsupported_topology_fails "quadrilateral" true 700 (by decide)
    (by decide) (by decide)

/-- The subsequence of single-qubit idle-window operations (delays and
flip pulses) recorded on qubit `q`. -/
def opsOn (q : Qubit) (c : List Op) : List Op :=
  c.filter fun op =>
    match op with
    | Op.x q' => q' == q
    | Op.delay _ q' => q' == q
    | _ => false

/-- The per-data-qubit decoupling sequence as the claim words it:
`half = delay_dt / 2` rounded down and the SECOND delay carries the
remainder, `Delay(half), FlipPulse, Delay(delay_dt - half), FlipPulse`. -/
def claimed_dd_seq (delay_dt : Nat) (i : Nat) : List Op :=
  [Op.delay (delay_dt / 2) (dq i), Op.x (dq i),
   Op.delay (delay_dt - delay_dt / 2) (dq i), Op.x (dq i)]

/-- C5 counterexample.  For the odd window `delay_dt = 1`, the scheduler
emits `Delay(0), FlipPulse, Delay(0), FlipPulse` on data qubit 0, not the
claimed `Delay(0), FlipPulse, Delay(1), FlipPulse`: the second delay does
not carry the remainder. -/
theorem dd_remainder_counterexample :
    ¬ (opsOn (dq 0) (endurance_sched true 1) = claimed_dd_seq 1 0) := by
  decide

/-- C5 amended.  In decoupling mode the scheduler emits per data qubit
exactly `Delay(half), FlipPulse, Delay(half), FlipPulse` with
`half = delay_dt / 2` rounded down — both delays carry `half`, and the
remainder of an odd `delay_dt` is dropped.  The velocity scheduler is the
same shape at its fixed `half = 350`. -/
theorem dd_scheduler_sequence (d : Nat) (i : Fin 3) :
    opsOn (dq i) (endurance_sched true d) =
      [Op.delay (d / 2) (dq i), Op.x (dq i),
       Op.delay (d / 2) (dq i), Op.x (dq i)] ∧
    opsOn (dq i) (velocity_sched true) =
      [Op.delay 350 (dq i), Op.x (dq i),
       Op.delay 350 (dq i), Op.x (dq i)] := by
  fin_cases i <;> exact ⟨rfl, rfl⟩

/-- C6.  `build_circuit("line", true, 700)` produces the velocity circuit
with dynamical decoupling, whose operation sequence is exactly the listed
one: 3 initialization/encoding operations (`x`, `cx`, `cx`), 12 scheduler
operations (2 delays and 2 flip pulses per data qubit), 4 extractor gates
plus 2 ancilla measurements, 3 conditional corrections and 3 final
measurements — 27 operations in total, not counting the 5 scheduling
barriers interleaved between phases. -/
theorem velocity_line_700_shape :
    build_circuit "line" true 700 = Except.ok (build_velocity_circuit true) ∧
    build_velocity_circuit true =
      [Op.x (dq 0), Op.barrier "INIT",
       Op.cx (dq 0) (dq 1), Op.cx (dq 0) (dq 2), Op.barrier "ENCODE",
       Op.delay 350 (dq 0), Op.x (dq 0), Op.delay 350 (dq 0), Op.x (dq 0),
       Op.delay 350 (dq 1), Op.x (dq 1), Op.delay 350 (dq 1), Op.x (dq 1),
       Op.delay 350 (dq 2), Op.x (dq 2), Op.delay 350 (dq 2), Op.x (dq 2),
       Op.barrier "DELAY_700dt",
       Op.cx (dq 0) (aq 0), Op.cx (dq 1) (aq 0),
       Op.cx (dq 1) (aq 1), Op.cx (dq 2) (aq 1),
       Op.measure (aq 0) (sb 0), Op.measure (aq 1) (sb 1),
       Op.barrier "SYNDROME",
       Op.ifX CReg.syn 3 (dq 1), Op.ifX CReg.syn 1 (dq 0),
       Op.ifX CReg.syn 2 (dq 2),
       Op.barrier "CORRECTION",
       Op.measure (dq 0) (ob 0), Op.measure (dq 1) (ob 1),
       Op.measure (dq 2) (ob 2)] ∧
    ((build_velocity_circuit true).filter
      (fun op => ! (Op.isBarrier op))).length = 27 ∧
    ((build_velocity_circuit true).filter Op.isBarrier).length = 5 :=
  ⟨rfl, rfl, rfl, rfl⟩

/-- No operation satisfying `q` occurs strictly after an operation
satisfying `p` in the list. -/
def noLater (p q : Op → Bool) : List Op → Bool
  | [] => true
  | op :: rest =>
    (!(p op) || rest.all (fun o => !(q o))) && noLater p q rest

/-- C7.  In every produced circuit, no measurement into a classical
register occurs after a conditional flip reading that register (so every
`Measure` writing a bit precedes every `ConditionalFlip` whose predicate
reads it), no conditional flip occurs after a final readout measurement
(so all conditional flips precede the readout), and the conditional flips
number exactly three. -/
theorem measure_cond_readout_ordering (dd : Bool) (d : Nat) (r : CReg) :
    noLater (isCondOn r) (isMeasureInto r) (build_velocity_circuit dd) = true ∧
    noLater (isCondOn r) (isMeasureInto r) (build_endurance_circuit dd d) = true ∧
    noLater (isMeasureInto CReg.out) Op.isCond (build_velocity_circuit dd) = true ∧
    noLater (isMeasureInto CReg.out) Op.isCond (build_endurance_circuit dd d) = true ∧
    ((build_velocity_circuit dd).filter Op.isCond).length = 3 ∧
    ((build_endurance_circuit dd d).filter Op.isCond).length = 3 := by
  cases r <;> cases dd <;> exact ⟨rfl, rfl, rfl, rfl, rfl, rfl⟩

/-- C8.  Circuit synthesis is deterministic: two calls of the entry point
with identical topology, decoupling flag and delay arguments produce
identical results, and likewise for the two underlying builders.  (The
source builders are pure: they read no ambient state and use no
randomness, which the embedding reflects.) -/
theorem build_circuit_deterministic (t t' : String) (dd dd' : Bool)
    (d d' : Int) (n n' : Nat) (ht : t = t') (hdd : dd = dd') (hd : d = d')
    (hn : n = n') :
    build_circuit t dd d = build_circuit t' dd' d' ∧
    build_velocity_circuit dd = build_velocity_circuit dd' ∧
    build_endurance_circuit dd n = build_endurance_circuit dd' n' := by
  subst ht hdd hd hn
  exact ⟨rfl, rfl, rfl⟩

/-- C8 witness: two calls of `build_circuit("line", true, 700)` agree. -/
theorem build_circuit_deterministic_witness :
    build_circuit "line" true 700 = build_circuit "line" true 700 ∧
    build_velocity_circuit true = build_velocity_circuit true ∧
    build_endurance_circuit true 700 = build_endurance_circuit true 700 :=
  build_circuit_deterministic "line" "line" true true 700 700 700 700
    rfl rfl rfl rfl

/-- The classical bits targeted by measurements, in program order. -/
def measureTargets (c : List Op) : List Clbit :=
  c.filterMap fun op =>
    match op with
    | Op.measure _ b => some b
    | _ => none

/-- C9.  In every produced circuit the measurement targets are exactly the
2 syndrome bits followed by the 3 output bits, each targeted exactly once;
the target list has no duplicate, so no classical bit is ever measured
twice and the `DuplicateMeasurement` branch is unreachable; and the
syndrome and output registers are disjoint. -/
theorem no_duplicate_measurement (dd : Bool) (d : Nat) (b : Clbit) :
    measureTargets (build_velocity_circuit dd) =
      [sb 0, sb 1, ob 0, ob 1, ob 2] ∧
    measureTargets (build_endurance_circuit dd d) =
      [sb 0, sb 1, ob 0, ob 1, ob 2] ∧
    (measureTargets (build_velocity_circuit dd)).Nodup ∧
    (measureTargets (build_endurance_circuit dd d)).Nodup ∧
    (measureTargets (build_velocity_circuit dd)).count b ≤ 1 ∧
    (measureTargets (build_endurance_circuit dd d)).count b ≤ 1 ∧
    (∀ i : Fin 2, (measureTargets (build_velocity_circuit dd)).count (sb i) = 1) ∧
    (∀ i : Fin 3, (measureTargets (build_velocity_circuit dd)).count (ob i) = 1) ∧
    (∀ i : Fin 2, (measureTargets (build_endurance_circuit dd d)).count (sb i) = 1) ∧
    (∀ i : Fin 3, (measureTargets (build_endurance_circuit dd d)).count (ob i) = 1) ∧
    (∀ i j : Nat, sb i ≠ ob j) := by
  have hv : measureTargets (build_velocity_circuit dd) =
      [sb 0, sb 1, ob 0, ob 1, ob 2] := by
    cases dd <;> rfl
  have he : measureTargets (build_endurance_circuit dd d) =
      [sb 0, sb 1, ob 0, ob 1, ob 2] := by
    cases dd <;> rfl
  have hnd : ([sb 0, sb 1, ob 0, ob 1, ob 2] : List Clbit).Nodup := by decide
  refine ⟨hv, he, hv ▸ hnd, he ▸ hnd, ?_, ?_, ?_, ?_, ?_, ?_, ?_⟩
  · exact hv ▸ List.nodup_iff_count_le_one.mp hnd b
  · exact he ▸ List.nodup_iff_count_le_one.mp hnd b
  · intro i
    rw [hv]
    fin_cases i <;> decide
  · intro i
    rw [hv]
    fin_cases i <;> decide
  · intro i
    rw [he]
    fin_cases i <;> decide
  · intro i
    rw [he]
    fin_cases i <;> decide
  · intro i j h
    exact CReg.noConfusion (congrArg Clbit.reg h)

/-- Forget the data that the delay argument is allowed to change: delay
durations and barrier labels. -/
def eraseTimings : Op → Op
  | Op.delay _ q => Op.delay 0 q
  | Op.barrier _ => Op.barrier ""
  | op => op

/-- The barrier labels of a circuit, in program order. -/
def barrierLabels (c : List Op) : List String :=
  c.filterMap fun op =>
    match op with
    | Op.barrier l => some l
    | _ => none

/-- C10.  For the star-topology builder with the decoupling flag fixed,
varying the delay argument changes only the delay durations and the
delay-phase barrier label: the circuits for any two delays agree once
durations and labels are erased (same operations, same count, same
order), their operations other than delays and barriers are literally
identical, and the barrier labels are `INIT`, `ENCODE`,
`DELAY_<delay>dt`, `SYNDROME`, `CORRECTION` — so only the third label
depends on the delay. -/
theorem endurance_delay_frame_effect (dd : Bool) (d1 d2 : Nat) :
    (build_endurance_circuit dd d1).map eraseTimings =
      (build_endurance_circuit dd d2).map eraseTimings ∧
    (build_endurance_circuit dd d1).filter
        (fun op => !(Op.isDelay op) && !(Op.isBarrier op)) =
      (build_endurance_circuit dd d2).filter
        (fun op => !(Op.isDelay op) && !(Op.isBarrier op)) ∧
    barrierLabels (build_endurance_circuit dd d1) =
      ["INIT", "ENCODE", "DELAY_" ++ toString d1 ++ "dt",
       "SYNDROME", "CORRECTION"] ∧
    (build_endurance_circuit dd d1).length =
      (build_endurance_circuit dd d2).length := by
  cases dd <;> exact ⟨rfl, rfl, rfl, rfl⟩

end Fors33
